import Mathlib

/-!
Shallow embedding of the process-execution layer of the repository
(src/libutil/processes.cc): the wait-status decoder, the Pid process
handle, the startProcess child-side wrapper, RunningProgram, killUser
and the runProgram convenience entry points.  The embedding targets the
Linux build of the file (the BSD-only special case in Pid::kill and the
non-HAVE_STRSIGNAL branch of statusToString are compiled out there).
Wait statuses are modelled as natural numbers carrying the classic
wstatus encoding; the wstatus accessor macros are embedded below.
-/

namespace Lix

/-- Errno value EPERM as on Linux. -/
def EPERM : Nat := 1

/-- Errno value ESRCH as on Linux. -/
def ESRCH : Nat := 3

/-- Errno value EINTR as on Linux. -/
def EINTR : Nat := 4

/-- Signal number of SIGKILL on Linux, the default kill signal of a Pid. -/
def SIGKILL : Int := 9

/-! ## Wait-status accessor macros (glibc definitions)

WIFEXITED(s) is (s & 0x7f) == 0; WEXITSTATUS(s) is (s >> 8) & 0xff;
WTERMSIG(s) is s & 0x7f; WIFSIGNALED(s) is
((signed char)(((s & 0x7f) + 1) >> 1)) > 0, which for the 7-bit value
t = s & 0x7f holds exactly when t is neither 0 nor 0x7f. -/

/-- WIFEXITED of glibc: the low seven bits of the status are zero. -/
def wifexited (s : Nat) : Bool := s % 128 == 0

/-- WEXITSTATUS of glibc: bits 8..15 of the status. -/
def wexitstatus (s : Nat) : Nat := s / 256 % 256

/-- WTERMSIG of glibc: the low seven bits of the status. -/
def wtermsig (s : Nat) : Nat := s % 128

/-- WIFSIGNALED of glibc: the low seven bits are neither 0 nor 127. -/
def wifsignaled (s : Nat) : Bool := s % 128 != 0 && s % 128 != 127

/-- Embedding of statusToString (processes.cc lines 356-373), Linux build
where HAVE_STRSIGNAL holds.  The libc strsignal table is not part of the
repository, so the function is parametrised by it (sstr). -/
def statusToString (sstr : Nat → String) (status : Nat) : String :=
  if !wifexited status || wexitstatus status != 0 then
    if wifexited status then
      "failed with exit code " ++ toString (wexitstatus status)
    else if wifsignaled status then
      "failed due to signal " ++ toString (wtermsig status)
        ++ " (" ++ sstr (wtermsig status) ++ ")"
    else
      "died abnormally"
  else "succeeded"

/-- Embedding of statusOk (processes.cc lines 376-379). -/
def statusOk (status : Nat) : Bool :=
  wifexited status && wexitstatus status == 0

/-- Wait statuses actually producible by the kernel through waitpid:
normal exit with a code up to 255, termination by a signal (with or
without the core-dump bit 0x80), a stop status, or the continued
status 0xffff. -/
def ValidWaitStatus (s : Nat) : Prop :=
  (∃ c, c ≤ 255 ∧ s = c * 256) ∨
  (∃ g, 1 ≤ g ∧ g ≤ 126 ∧ (s = g ∨ s = g + 128)) ∨
  (∃ g, g ≤ 255 ∧ s = g * 256 + 127) ∨
  s = 65535

/-! ## The Pid process handle -/

/-- Embedding of the Pid class state (declared in processes.hh, which is
not among the given sources; the sentinel -1 for the empty state and the
SIGKILL default are those the spec records in its data model).  A pid of
-1 is the Empty state, anything else is Owning. -/
structure Pid where
  pid : Int
  separatePG : Bool
  killSignal : Int
deriving DecidableEq

/-- Outcome of one waitpid call on the child: either the child was
reaped with a status, or the call failed with an errno. -/
inductive WaitpidRes where
  | done (status : Nat)
  | fail (errno : Nat)
deriving DecidableEq

/-- Result of Pid::wait.  ok carries the raw status; sysError is the
thrown SysError; interrupted is the cancellation condition raised by
checkInterrupt; assertFailed models a failed assert(pid != -1); pending
means the supplied oracle trace ended while the loop was still
retrying. -/
inductive WaitOutcome where
  | ok (status : Nat)
  | sysError (msg : String)
  | interrupted
  | assertFailed
  | pending
deriving DecidableEq

/-- Loop body of Pid::wait (processes.cc lines 85-95) over an oracle
trace: each element is one waitpid outcome paired with the value of the
interruption flag sampled by the checkInterrupt call of that
iteration. -/
def waitLoop (p : Int) : List (WaitpidRes × Bool) → WaitOutcome
  | [] => .pending
  | (.done st, _) :: _ => .ok st
  | (.fail e, intr) :: rest =>
    if e ≠ EINTR then
      .sysError ("cannot get exit status of PID " ++ toString p)
    else if intr then .interrupted
    else waitLoop p rest

/-- Embedding of Pid::wait (processes.cc lines 82-96): asserts the
Owning state, runs the retry loop, and on success resets the pid to the
-1 sentinel before returning the raw status. -/
def Pid.wait (p : Pid) (tr : List (WaitpidRes × Bool)) : WaitOutcome × Pid :=
  if p.pid = -1 then (.assertFailed, p)
  else
    match waitLoop p.pid tr with
    | .ok st => (.ok st, ⟨-1, p.separatePG, p.killSignal⟩)
    | o => (o, p)

/-- Observable OS-facing actions of the Pid operations, used to state
that a handle does or does not touch its process. -/
inductive Action where
  | debugLog (msg : String)
  | signal (target : Int) (sig : Int)
  | logError (msg : String)
  | waitCall (p : Int)
deriving DecidableEq

/-- Outcome of the kill(2) syscall issued by Pid::kill. -/
inductive KillRes where
  | ok
  | fail (errno : Nat)
deriving DecidableEq

/-- Embedding of Pid::kill (processes.cc lines 59-79), Linux build (the
FreeBSD/Darwin zombie-group special case is compiled out): sends the
configured signal to the process, or to its whole group when separatePG
is set; a failure of the delivery itself is only logged (the logged
SysError text is abbreviated to its format portion); then always waits,
returning the resulting status.  The waitCall action stands for the
blocking wait that follows. -/
def Pid.kill (p : Pid) (kr : KillRes) (tr : List (WaitpidRes × Bool)) :
    WaitOutcome × Pid × List Action :=
  if p.pid = -1 then (.assertFailed, p, [])
  else
    let target : Int := if p.separatePG then -p.pid else p.pid
    let acts : List Action :=
      [.debugLog ("killing process " ++ toString p.pid), .signal target p.killSignal]
        ++ (match kr with
            | .ok => []
            | .fail _ => [.logError ("killing process " ++ toString p.pid)])
        ++ [.waitCall p.pid]
    let w := p.wait tr
    (w.1, w.2, acts)

/-- Embedding of the Pid destructor (processes.cc lines 53-56): an
Owning handle is killed (and thereby reaped); an Empty handle does
nothing at all. -/
def Pid.dtor (p : Pid) (kr : KillRes) (tr : List (WaitpidRes × Bool)) :
    Option WaitOutcome × List Action :=
  if p.pid = -1 then (none, [])
  else
    let k := p.kill kr tr
    (some k.1, k.2.2)

/-- Embedding of the Pid move constructor (processes.cc lines 37-40):
the destination copies all three fields, the source pid is reset to -1
(its configuration fields are left as they were).  Returns
(destination, emptied source). -/
def Pid.moveCtor (other : Pid) : Pid × Pid :=
  (⟨other.pid, other.separatePG, other.killSignal⟩,
   ⟨-1, other.separatePG, other.killSignal⟩)

/-- Embedding of the Pid move assignment (processes.cc lines 43-50):
move-constructs a temporary from the source, swaps all fields with it,
and lets the temporary (now holding the old state of the destination)
be destroyed, which kills and reaps the previously owned process when
there was one.  Returns (new destination, emptied source, actions of
the temporary destruction). -/
def Pid.moveAssign (dest other : Pid) (kr : KillRes)
    (tr : List (WaitpidRes × Bool)) : Pid × Pid × List Action :=
  let mc := Pid.moveCtor other
  let tmp : Pid := dest
  let d := tmp.dtor kr tr
  (mc.1, mc.2, d.2)

/-- Embedding of Pid::release (processes.cc lines 111-116): hands back
the raw pid without any OS action and resets the handle to -1. -/
def Pid.release (p : Pid) : Int × Pid :=
  (p.pid, ⟨-1, p.separatePG, p.killSignal⟩)

/-! ## RunningProgram -/

/-- Embedding of the RunningProgram state: the program name used in
error messages and the owned Pid.  The captured-output stream is kept
out of the state (none of its operations are needed here); its presence
is irrelevant to the destructor and wait logic. -/
structure RunningProgram where
  program : String
  pid : Pid
deriving DecidableEq

/-- Behaviour of the RunningProgram destructor. -/
inductive DtorBehavior where
  | fatalTerminate
  | normalReturn
deriving DecidableEq

/-- Embedding of the RunningProgram destructor (processes.cc lines
269-278): the test if (pid) is the boolean conversion of Pid, true
exactly when the handle still owns a process (pid differs from the -1
sentinel recorded by the spec data model; processes.hh is not among the
sources).  When it still owns one, the assert fires and std::terminate
is called; otherwise destruction completes normally. -/
def RunningProgram.dtor (rp : RunningProgram) : DtorBehavior :=
  if rp.pid.pid ≠ -1 then .fatalTerminate else .normalReturn

/-- Result of RunningProgram::wait.  execError is the thrown ExecError
with its raw status and formatted message; killedLogged is the
exception-unwinding path that kills the child and only logs; the
remaining cases lift the embedded Pid outcomes. -/
inductive RPWaitResult where
  | returned
  | execError (status : Nat) (msg : String)
  | sysError (msg : String)
  | interrupted
  | assertFailed
  | pending
  | killedLogged (msg : String)
deriving DecidableEq

/-- Embedding of RunningProgram::wait (processes.cc lines 280-290).
When no exception is propagating (uncaught = 0) it performs Pid::wait
and throws an ExecError naming the program and the decoded status
exactly when the status is nonzero.  When one is propagating it instead
calls Pid::kill on the child and logs, raising nothing new. -/
def RunningProgram.wait (rp : RunningProgram) (sstr : Nat → String)
    (uncaught : Nat) (kr : KillRes) (tr : List (WaitpidRes × Bool)) :
    RPWaitResult × RunningProgram :=
  if uncaught = 0 then
    match rp.pid.wait tr with
    | (.ok st, p1) =>
      if st ≠ 0 then
        (.execError st ("program \x27" ++ rp.program ++ "\x27 "
            ++ statusToString sstr st),
         ⟨rp.program, p1⟩)
      else (.returned, ⟨rp.program, p1⟩)
    | (.sysError m, p1) => (.sysError m, ⟨rp.program, p1⟩)
    | (.interrupted, p1) => (.interrupted, ⟨rp.program, p1⟩)
    | (.assertFailed, p1) => (.assertFailed, ⟨rp.program, p1⟩)
    | (.pending, p1) => (.pending, ⟨rp.program, p1⟩)
  else
    let k := rp.pid.kill kr tr
    match k.1 with
    | .ok _ =>
      (.killedLogged ("killed subprocess " ++ rp.program
          ++ " during exception handling"),
       ⟨rp.program, k.2.1⟩)
    | .sysError m => (.sysError m, ⟨rp.program, k.2.1⟩)
    | .interrupted => (.interrupted, ⟨rp.program, k.2.1⟩)
    | .assertFailed => (.assertFailed, ⟨rp.program, k.2.1⟩)
    | .pending => (.pending, ⟨rp.program, k.2.1⟩)

/-! ## The startProcess child-side wrapper -/

/-- Embedding of the ProcessOptions fields the wrapper reads (the
structure itself is declared in processes.hh; the fields and their uses
are those of processes.cc lines 187-204 and 208-225).  errorPfx embeds
the errorPrefix field. -/
structure ProcessOptions where
  dieWithParent : Bool
  runExitHandlers : Bool
  errorPfx : String
  cloneFlags : Nat
deriving DecidableEq

/-- Behaviour of the child procedure handed to startProcess: it either
returns normally, throws a std::exception carrying a message, or throws
something else. -/
inductive ChildOutcome where
  | returns
  | throwsStd (msg : String)
  | throwsOther
deriving DecidableEq

/-- How the child image terminates: exit(1), which runs exit handlers,
or _exit(1), which bypasses them. -/
inductive ExitMode where
  | withHandlers
  | immediate
deriving DecidableEq

/-- Observable result of the wrapper: the lines written to the child
standard error, the exit status, and the termination mode.  There is no
constructor for a propagating exception: the wrapper admits none. -/
structure WrapperResult where
  stderrOut : List String
  exitCode : Nat
  mode : ExitMode
deriving DecidableEq

/-- Embedding of the child-side wrapper installed by startProcess
(processes.cc lines 187-204), Linux build.  prctlOk tells whether the
PR_SET_PDEATHSIG call succeeded (only consulted when dieWithParent is
set; its failure is a SysError thrown inside the same try block, with
the format portion of its message).  writeOk tells whether the
diagnostic write to stderr succeeded; its failure is swallowed.  On
every path the wrapper ends in exit(1) or _exit(1) according to
runExitHandlers. -/
def startProcessWrapper (opts : ProcessOptions) (prctlOk : Bool)
    (outcome : ChildOutcome) (writeOk : Bool) : WrapperResult :=
  let thrown : Option (Option String) :=
    if opts.dieWithParent && !prctlOk then some (some "setting death signal")
    else
      match outcome with
      | .returns => none
      | .throwsStd m => some (some m)
      | .throwsOther => some none
  let errOut : List String :=
    match thrown with
    | some (some m) => if writeOk then [opts.errorPfx ++ m ++ "\n"] else []
    | _ => []
  ⟨errOut, 1, if opts.runExitHandlers then .withHandlers else .immediate⟩

/-! ## killUser -/

/-- Coarse actions of killUser visible in the parent, used to state
that the uid-0 precondition failure happens before any helper is
spawned. -/
inductive KUAction where
  | debugLog (msg : String)
  | spawnHelper
  | waitHelper
deriving DecidableEq

/-- Result of the killUser helper child procedure: _exit with a code, a
thrown error (caught by the startProcess wrapper, which then exits 1),
or an exhausted oracle trace while the broadcast loop was still
retrying. -/
inductive ChildResult where
  | exited (code : Nat)
  | threw (msg : String)
  | pendingLoop
deriving DecidableEq

/-- Embedding of the broadcast loop of the killUser helper
(processes.cc lines 134-148), Linux build: each trace element is the
outcome of one kill(-1, SIGKILL) broadcast.  A successful broadcast
breaks the loop, ESRCH or EPERM (no process left to signal) breaks it,
EINTR retries, and any other errno throws. -/
def killLoop (uid : Nat) : List KillRes → ChildResult
  | [] => .pendingLoop
  | .ok :: _ => .exited 0
  | .fail e :: rest =>
    if e = ESRCH ∨ e = EPERM then .exited 0
    else if e ≠ EINTR then
      .threw ("cannot kill processes for uid \x27" ++ toString uid ++ "\x27")
    else killLoop uid rest

/-- Embedding of the killUser helper child procedure (processes.cc
lines 129-151): switch to the uid (a setuid failure throws), run the
broadcast loop, then _exit(0). -/
def killUserChild (uid : Nat) (setuidOk : Bool) (ktr : List KillRes) :
    ChildResult :=
  if setuidOk then killLoop uid ktr else .threw "setting uid"

/-- Wait status of the killUser helper as observed by the parent: a
child that reached _exit(c) yields the status c * 256; a throw is
caught by the startProcess wrapper, which makes the child exit 1,
yielding status 256. -/
def killUserHelperStatus (uid : Nat) (setuidOk : Bool)
    (ktr : List KillRes) : Option Nat :=
  match killUserChild uid setuidOk ktr with
  | .exited c => some (c * 256)
  | .threw _ => some 256
  | .pendingLoop => none

/-- Result of killUser in the parent. -/
inductive KillUserResult where
  | ok
  | assertFailed
  | error (msg : String)
  | pending
deriving DecidableEq

/-- Embedding of killUser (processes.cc lines 119-161): the debug log,
the assert(uid != 0) precondition, the spawn of the helper, the wait
for it, and the Error raised exactly when the helper status is
nonzero.  The parent-side Pid::wait on the helper is represented by the
status the helper produced. -/
def killUser (sstr : Nat → String) (uid : Nat) (setuidOk : Bool)
    (ktr : List KillRes) : KillUserResult × List KUAction :=
  let dbg := KUAction.debugLog
    ("killing all processes running under uid \x27" ++ toString uid ++ "\x27")
  if uid = 0 then (.assertFailed, [dbg])
  else
    match killUserHelperStatus uid setuidOk ktr with
    | none => (.pending, [dbg, .spawnHelper])
    | some st =>
      if st ≠ 0 then
        (.error ("cannot kill processes for uid \x27" ++ toString uid
            ++ "\x27: " ++ statusToString sstr st),
         [dbg, .spawnHelper, .waitHelper])
      else (.ok, [dbg, .spawnHelper, .waitHelper])

/-! ## The runProgram convenience entry points -/

/-- Embedding of the RunOptions structure (declared in processes.hh;
its fields are the ones processes.cc reads): program, searchPath, args,
optional full environment replacement, captureStdout,
mergeStderrToStdout, optional working directory, optional gid and uid,
and isInteractive. -/
structure RunOptions where
  program : String
  searchPath : Bool
  args : List String
  environment : Option (List (String × String))
  captureStdout : Bool
  mergeStderrToStdout : Bool
  chdir : Option String
  gid : Option Nat
  uid : Option Nat
  isInteractive : Bool
deriving DecidableEq

/-- What runProgram2 produced for the pair-returning caller: either a
setup failure (a SysError or Error raised while building pipes or
spawning, which is not an ExecError), or a child that ran to completion
with a wait status and the bytes it wrote to the captured stdout. -/
inductive Run2Outcome where
  | setupError (msg : String)
  | ran (status : Nat) (output : String)
deriving DecidableEq

/-- Result of the pair-returning runProgram. -/
inductive PairResult where
  | raised (msg : String)
  | returned (status : Nat) (output : String)
deriving DecidableEq

/-- Embedding of the pair-returning runProgram (processes.cc lines
243-259): it forces captureStdout on before calling runProgram2, drains
the child output into the buffer, and lets the scope-exit wait run;
RunningProgram::wait throws an ExecError exactly when the status is
nonzero, the catch (ExecError) stores e.status into the status variable
initialised to 0, and the pair is returned.  Anything that is not an
ExecError propagates.  Returns the options passed down together with
the result. -/
def runProgramPair (opts : RunOptions) (r : Run2Outcome) :
    RunOptions × PairResult :=
  let opts1 : RunOptions :=
    ⟨opts.program, opts.searchPath, opts.args, opts.environment, true,
     opts.mergeStderrToStdout, opts.chdir, opts.gid, opts.uid,
     opts.isInteractive⟩
  (opts1,
   match r with
   | .setupError m => .raised m
   | .ran st out =>
     if st ≠ 0 then .returned st out else .returned 0 out)

/-! ## Theorems -/

/-- Helper: over the statuses the kernel can actually report, a status
is ok exactly when it is the zero status (normal exit, code 0). -/
theorem statusOk_eq_true_iff (s : Nat) (h : ValidWaitStatus s) :
    statusOk s = true ↔ s = 0 := by
  have hs : statusOk s = true ↔ (s % 128 = 0 ∧ s / 256 % 256 = 0) := by
    simp [statusOk, wifexited, wexitstatus]
  rw [hs]
  rcases h with ⟨c, hc, rfl⟩ | ⟨g, hg1, hg2, hg⟩ | ⟨g, hg, rfl⟩ | rfl
  · omega
  · rcases hg with rfl | rfl <;> omega
  · omega
  · omega

/-- Claim C1: for every normal-exit status with code 0 through 255 the
decoder returns "succeeded" exactly when the code is 0 and otherwise
"failed with exit code N"; for a termination-by-signal status (with or
without the core-dump bit) it returns "failed due to signal S
(description)"; for any other status shape it returns "died
abnormally"; and statusOk is true exactly on the normal-exit-with-code-0
statuses. -/
theorem c1_status_decoder (sstr : Nat → String) :
    (∀ c, c ≤ 255 → statusToString sstr (c * 256)
        = if c = 0 then "succeeded" else "failed with exit code " ++ toString c) ∧
    (∀ g, 1 ≤ g → g ≤ 126 →
      statusToString sstr g
          = "failed due to signal " ++ toString g ++ " (" ++ sstr g ++ ")" ∧
      statusToString sstr (g + 128)
          = "failed due to signal " ++ toString g ++ " (" ++ sstr g ++ ")") ∧
    (∀ s, s % 128 = 127 → statusToString sstr s = "died abnormally") ∧
    (∀ c, c ≤ 255 → (statusOk (c * 256) = true ↔ c = 0)) ∧
    (∀ s, ValidWaitStatus s → (statusOk s = true ↔ s = 0)) := by
  refine ⟨?_, ?_, ?_, ?_, ?_⟩
  · intro c hc
    have h1 : c * 256 % 128 = 0 := by omega
    have h2 : c * 256 / 256 % 256 = c := by omega
    have h3 : c % 256 = c := by omega
    by_cases hc0 : c = 0
    · subst hc0; rfl
    · simp [statusToString, wifexited, wexitstatus, h1, h2, h3, hc0]
  · intro g hg1 hg2
    have hne0 : g ≠ 0 := by omega
    have hne127 : g ≠ 127 := by omega
    have h1 : g % 128 = g := by omega
    have h3 : (g + 128) % 128 = g := by omega
    constructor
    · simp [statusToString, wifexited, wexitstatus, wifsignaled, wtermsig,
        h1, hne0, hne127]
    · simp [statusToString, wifexited, wexitstatus, wifsignaled, wtermsig,
        h3, hne0, hne127]
  · intro s hs
    simp [statusToString, wifexited, wexitstatus, wifsignaled, wtermsig, hs]
  · intro c hc
    have h1 : c * 256 % 128 = 0 := by omega
    have h2 : c * 256 / 256 % 256 = c := by omega
    have h3 : c % 256 = c := by omega
    simp [statusOk, wifexited, wexitstatus, h1, h2, h3]
  · intro s hv
    exact statusOk_eq_true_iff s hv

/-- Witness for C1 at concrete statuses: exit code 1, signal 9 and the
zero status. -/
theorem c1_status_decoder_witness :
    statusToString (fun _ => "Killed") (1 * 256) = "failed with exit code 1" ∧
    statusToString (fun _ => "Killed") 9 = "failed due to signal 9 (Killed)" ∧
    statusOk (0 * 256) = true := by
  have h := c1_status_decoder (fun _ => "Killed")
  refine ⟨?_, ?_, ?_⟩
  · have h1 := h.1 1 (by decide)
    simpa using h1
  · exact (h.2.1 9 (by decide) (by decide)).1
  · exact (h.2.2.2.1 0 (by decide)).mpr rfl

/-- Claim C3: Pid::wait on an Owning handle retries the blocking OS
wait on EINTR, checks the cancellation condition between retries and
raises it when requested, raises the fatal "cannot get exit status"
error on any other OS failure, and on completion returns the raw status
with the handle transitioned to Empty. -/
theorem c3_pid_wait (p : Pid) (tr : List (WaitpidRes × Bool))
    (h : p.pid ≠ -1) :
    (waitLoop p.pid ((.fail EINTR, false) :: tr) = waitLoop p.pid tr) ∧
    (p.wait ((.fail EINTR, true) :: tr) = (.interrupted, p)) ∧
    (∀ e i, e ≠ EINTR →
      p.wait ((.fail e, i) :: tr)
        = (.sysError ("cannot get exit status of PID " ++ toString p.pid), p)) ∧
    (∀ st b, p.wait ((.done st, b) :: tr)
        = (.ok st, ⟨-1, p.separatePG, p.killSignal⟩)) := by
  refine ⟨?_, ?_, ?_, ?_⟩
  · simp [waitLoop]
  · simp [Pid.wait, waitLoop, h]
  · intro e i he
    simp [Pid.wait, waitLoop, h, he]
  · intro st b
    simp [Pid.wait, waitLoop, h]

/-- Witness for C3 at a concrete handle: a non-EINTR failure is fatal
and a completed wait empties the handle. -/
theorem c3_pid_wait_witness :
    Pid.wait ⟨5, false, 9⟩ [(.fail 13, true)]
      = (.sysError "cannot get exit status of PID 5", ⟨5, false, 9⟩) ∧
    Pid.wait ⟨5, false, 9⟩ [(.done 0, false)] = (.ok 0, ⟨-1, false, 9⟩) := by
  have h := c3_pid_wait ⟨5, false, 9⟩ [] (by decide)
  exact ⟨h.2.2.1 13 true (by decide), h.2.2.2 0 false⟩

/-- Claim C4: the Pid exclusive-ownership invariant: the Empty state
(sentinel -1) owns no process and wait/kill on it fail their
precondition assertion; wait, kill and release each transition an
Owning handle to Empty; and a move (construction or assignment)
transfers all fields to the destination and leaves the source Empty. -/
theorem c4_pid_ownership (p : Pid) (kr : KillRes)
    (tr : List (WaitpidRes × Bool)) :
    (Pid.moveCtor p
      = (⟨p.pid, p.separatePG, p.killSignal⟩, ⟨-1, p.separatePG, p.killSignal⟩)) ∧
    (∀ st b, p.pid ≠ -1 → (p.wait ((.done st, b) :: tr)).2.pid = -1) ∧
    (∀ st b, p.pid ≠ -1 → (p.kill kr ((.done st, b) :: tr)).2.1.pid = -1) ∧
    (p.release = (p.pid, ⟨-1, p.separatePG, p.killSignal⟩)) ∧
    (p.pid = -1 →
      (p.wait tr).1 = .assertFailed ∧ (p.kill kr tr).1 = .assertFailed) ∧
    (∀ other, (Pid.moveAssign p other kr tr).1
        = ⟨other.pid, other.separatePG, other.killSignal⟩ ∧
      (Pid.moveAssign p other kr tr).2.1.pid = -1) := by
  refine ⟨rfl, ?_, ?_, rfl, ?_, ?_⟩
  · intro st b h
    simp [Pid.wait, waitLoop, h]
  · intro st b h
    simp [Pid.kill, Pid.wait, waitLoop, h]
  · intro h
    refine ⟨?_, ?_⟩ <;> simp [Pid.wait, Pid.kill, h]
  · intro other
    exact ⟨rfl, rfl⟩

/-- Witness for C4 at concrete handles: a completed wait empties an
Owning handle, and wait on an Empty handle fails its assertion. -/
theorem c4_pid_ownership_witness :
    (Pid.wait ⟨7, true, 15⟩ [(.done 256, false)]).2.pid = -1 ∧
    (Pid.wait ⟨-1, false, 9⟩ []).1 = .assertFailed := by
  refine ⟨(c4_pid_ownership ⟨7, true, 15⟩ .ok []).2.1 256 false (by decide), ?_⟩
  exact ((c4_pid_ownership ⟨-1, false, 9⟩ .ok []).2.2.2.2.1 rfl).1

/-- Claim C7: destroying a RunningProgram that still owns a live,
un-waited process terminates the program fatally (assert plus
std::terminate), never an exception and never a silent kill; a waited
RunningProgram destructs normally. -/
theorem c7_running_program_dtor (rp : RunningProgram) :
    (rp.pid.pid ≠ -1 → rp.dtor = .fatalTerminate) ∧
    (rp.pid.pid = -1 → rp.dtor = .normalReturn) := by
  constructor <;> intro h <;> simp [RunningProgram.dtor, h]

/-- Witness for C7 at a concrete owning and a concrete waited
RunningProgram. -/
theorem c7_running_program_dtor_witness :
    RunningProgram.dtor ⟨"prog", ⟨5, false, 9⟩⟩ = .fatalTerminate ∧
    RunningProgram.dtor ⟨"prog", ⟨-1, false, 9⟩⟩ = .normalReturn :=
  ⟨(c7_running_program_dtor ⟨"prog", ⟨5, false, 9⟩⟩).1 (by decide),
   (c7_running_program_dtor ⟨"prog", ⟨-1, false, 9⟩⟩).2 rfl⟩

/-- Claim C2: RunningProgram::wait on an owning handle, called with no
exception propagating, performs the wait and raises the structured
execution error naming the program and the decoded status text exactly
when the resulting status is not ok, returning normally on an ok
status; called while an exception is propagating it instead force-kills
the child and only logs, raising nothing new. -/
theorem c2_running_program_wait (sstr : Nat → String) (rp : RunningProgram)
    (st : Nat) (b : Bool) (kr : KillRes) (tr : List (WaitpidRes × Bool))
    (hown : rp.pid.pid ≠ -1) (hv : ValidWaitStatus st) :
    (statusOk st = false →
      (rp.wait sstr 0 kr ((.done st, b) :: tr)).1
        = .execError st ("program \x27" ++ rp.program ++ "\x27 "
            ++ statusToString sstr st)) ∧
    (statusOk st = true →
      (rp.wait sstr 0 kr ((.done st, b) :: tr)).1 = .returned) ∧
    (∀ n, n ≠ 0 →
      (rp.wait sstr n kr ((.done st, b) :: tr)).1
        = .killedLogged ("killed subprocess " ++ rp.program
            ++ " during exception handling")) := by
  have hiff := statusOk_eq_true_iff st hv
  refine ⟨?_, ?_, ?_⟩
  · intro hok
    have hne : st ≠ 0 := by
      intro h0
      rw [hiff.mpr h0] at hok
      simp at hok
    simp [RunningProgram.wait, Pid.wait, waitLoop, hown, hne]
  · intro hok
    have h0 : st = 0 := hiff.mp hok
    subst h0
    simp [RunningProgram.wait, Pid.wait, waitLoop, hown]
  · intro n hn
    simp [RunningProgram.wait, Pid.kill, Pid.wait, waitLoop, hown, hn]

/-- Witness for C2 at a concrete program: exit status 256 (exit code 1)
raises the execution error, status 0 returns normally, and a wait
during unwinding only kills and logs. -/
theorem c2_running_program_wait_witness :
    (RunningProgram.wait ⟨"foo", ⟨5, false, 9⟩⟩ (fun _ => "k") 0 .ok
        [(.done 256, false)]).1
      = .execError 256 "program \x27foo\x27 failed with exit code 1" ∧
    (RunningProgram.wait ⟨"foo", ⟨5, false, 9⟩⟩ (fun _ => "k") 0 .ok
        [(.done 0, false)]).1 = .returned ∧
    (RunningProgram.wait ⟨"foo", ⟨5, false, 9⟩⟩ (fun _ => "k") 2 .ok
        [(.done 0, false)]).1
      = .killedLogged "killed subprocess foo during exception handling" := by
  have h1 := c2_running_program_wait (fun _ => "k") ⟨"foo", ⟨5, false, 9⟩⟩
    256 false .ok [] (by decide) (Or.inl ⟨1, by omega, by omega⟩)
  have h2 := c2_running_program_wait (fun _ => "k") ⟨"foo", ⟨5, false, 9⟩⟩
    0 false .ok [] (by decide) (Or.inl ⟨0, by omega, by omega⟩)
  exact ⟨h1.1 (by decide), h2.2.1 (by decide), h2.2.2 2 (by decide)⟩

/-- Claim C5: the killUser helper, after switching to the target uid,
broadcasts SIGKILL to every process it may signal, retrying on EINTR,
until a broadcast succeeds or nothing remains to kill (ESRCH or EPERM),
whereupon it exits 0; an unexpected errno makes the helper throw, hence
exit nonzero (status 256 through the wrapper), as does a setuid
failure; the parent waits for the helper and raises the error naming
the uid and the decoded status exactly when the helper status is not
ok. -/
theorem c5_kill_user (sstr : Nat → String) (uid : Nat) (h : uid ≠ 0) :
    (∀ r, killLoop uid (.fail EINTR :: r) = killLoop uid r) ∧
    (∀ r, killLoop uid (.ok :: r) = .exited 0 ∧
      killLoop uid (.fail ESRCH :: r) = .exited 0 ∧
      killLoop uid (.fail EPERM :: r) = .exited 0) ∧
    (∀ e r, e ≠ ESRCH → e ≠ EPERM → e ≠ EINTR →
      killLoop uid (.fail e :: r)
        = .threw ("cannot kill processes for uid \x27" ++ toString uid ++ "\x27")) ∧
    (∀ r, killUserChild uid false r = .threw "setting uid") ∧
    (∀ b ktr, killUserChild uid b ktr = .exited 0 →
      (killUser sstr uid b ktr).1 = .ok) ∧
    (∀ b ktr m, killUserChild uid b ktr = .threw m →
      (killUser sstr uid b ktr).1
        = .error ("cannot kill processes for uid \x27" ++ toString uid
            ++ "\x27: " ++ statusToString sstr 256)) := by
  refine ⟨?_, ?_, ?_, ?_, ?_, ?_⟩
  · intro r
    simp [killLoop, EINTR, ESRCH, EPERM]
  · intro r
    refine ⟨rfl, ?_, ?_⟩ <;> simp [killLoop, EINTR, ESRCH, EPERM]
  · intro e r he1 he2 he3
    simp [killLoop, he1, he2, he3]
  · intro r
    rfl
  · intro b ktr hc
    simp [killUser, killUserHelperStatus, hc, h]
  · intro b ktr m hc
    simp [killUser, killUserHelperStatus, hc, h]

/-- Witness for C5 at uid 100: a successful broadcast ends the helper
with exit 0 and a quiet parent, an unexpected errno (EACCES, 13) makes
the helper throw, and a helper status of 256 makes the parent raise the
decoded error. -/
theorem c5_kill_user_witness :
    killLoop 100 [.ok] = .exited 0 ∧
    killLoop 100 [.fail 13]
      = .threw "cannot kill processes for uid \x27100\x27" ∧
    (killUser (fun _ => "k") 100 true [.ok]).1 = .ok ∧
    (killUser (fun _ => "k") 100 true [.fail 13]).1
      = .error "cannot kill processes for uid \x27100\x27: failed with exit code 1" := by
  have h := c5_kill_user (fun _ => "k") 100 (by decide)
  refine ⟨(h.2.1 []).1, h.2.2.1 13 [] (by decide) (by decide) (by decide), ?_, ?_⟩
  · exact h.2.2.2.2.1 true [.ok] rfl
  · exact h.2.2.2.2.2 true [.fail 13] _ rfl

/-- Claim C6: killUser with uid 0 fails its precondition assertion
immediately: the only action taken before the failure is the debug log,
so no helper is spawned and no signal is delivered. -/
theorem c6_kill_user_uid_zero (sstr : Nat → String) (setuidOk : Bool)
    (ktr : List KillRes) :
    killUser sstr 0 setuidOk ktr
      = (.assertFailed,
         [.debugLog "killing all processes running under uid \x270\x27"]) ∧
    KUAction.spawnHelper ∉ (killUser sstr 0 setuidOk ktr).2 := by
  constructor
  · rfl
  · intro hmem
    simp [killUser] at hmem

/-- Claim C8: the child-side wrapper of startProcess never lets an
exception of childProcedure propagate: on every outcome (normal return,
std::exception, or any other throw) the child terminates with status 1,
running exit handlers exactly when runExitHandlers is set; a
std::exception gets the errorPrefix-plus-message diagnostic written to
the child stderr, with a failure of that write itself swallowed. -/
theorem c8_child_wrapper (opts : ProcessOptions) (prctlOk : Bool)
    (outcome : ChildOutcome) (writeOk : Bool) :
    (startProcessWrapper opts prctlOk outcome writeOk).exitCode = 1 ∧
    ((startProcessWrapper opts prctlOk outcome writeOk).mode
      = if opts.runExitHandlers then .withHandlers else .immediate) ∧
    (∀ m, (opts.dieWithParent = false ∨ prctlOk = true) →
      (startProcessWrapper opts prctlOk (.throwsStd m) true).stderrOut
        = [opts.errorPfx ++ m ++ "\n"] ∧
      (startProcessWrapper opts prctlOk (.throwsStd m) false).stderrOut = []) ∧
    ((opts.dieWithParent = false ∨ prctlOk = true) →
      (startProcessWrapper opts prctlOk .returns writeOk).stderrOut = []) := by
  refine ⟨rfl, rfl, ?_, ?_⟩
  · intro m hp
    rcases hp with hp | hp <;>
      constructor <;> simp [startProcessWrapper, hp]
  · intro hp
    rcases hp with hp | hp <;> simp [startProcessWrapper, hp]

/-- Witness for C8 at a concrete option set: a thrown std::exception is
reported on stderr and the child exits 1 bypassing handlers; a failed
diagnostic write is swallowed. -/
theorem c8_child_wrapper_witness :
    startProcessWrapper ⟨true, false, "error: ", 0⟩ true (.throwsStd "boom") true
      = ⟨["error: boom\n"], 1, .immediate⟩ ∧
    (startProcessWrapper ⟨true, false, "error: ", 0⟩ true (.throwsStd "boom")
        false).stderrOut = [] := by
  have h := c8_child_wrapper ⟨true, false, "error: ", 0⟩ true
    (.throwsStd "boom") true
  have hd := h.2.2.1 "boom" (Or.inr rfl)
  exact ⟨by rw [WrapperResult.mk.injEq]; exact ⟨hd.1, h.1, h.2.1⟩, hd.2⟩

/-- Claim C9: the pair-returning runProgram forces stdout capture,
drains the child output, and hands back (status, buffer) without
raising when the child ran, whatever its exit status; a setup failure
(not an execution error) propagates. -/
theorem c9_pair_variant (opts : RunOptions) (r : Run2Outcome) :
    ((runProgramPair opts r).1.captureStdout = true) ∧
    (∀ st out, r = .ran st out →
      (runProgramPair opts r).2 = .returned st out) ∧
    (∀ m, r = .setupError m → (runProgramPair opts r).2 = .raised m) := by
  refine ⟨rfl, ?_, ?_⟩
  · intro st out hr
    subst hr
    by_cases h : st = 0
    · subst h; rfl
    · simp [runProgramPair, h]
  · intro m hr
    subst hr
    rfl

/-- Witness for C9 at a concrete run: a child dying with SIGSEGV plus
core dump (status 139) yields the pair, not an exception, and the
options passed down capture stdout. -/
theorem c9_pair_variant_witness :
    (runProgramPair ⟨"p", false, [], none, false, false, none, none, none, false⟩
        (.ran 139 "out")).2 = .returned 139 "out" ∧
    (runProgramPair ⟨"p", false, [], none, false, false, none, none, none, false⟩
        (.ran 139 "out")).1.captureStdout = true := by
  have h := c9_pair_variant
    ⟨"p", false, [], none, false, false, none, none, none, false⟩ (.ran 139 "out")
  exact ⟨h.2.1 139 "out" rfl, h.1⟩

/-- Claim C10: move-assigning onto an Owning handle does not leak the
previously owned process: the dying temporary sends the configured kill
signal to the old process (or its group) and then reaps it with the
blocking wait, while the destination takes the source fields and the
source is emptied; destroying an Empty handle performs no action at
all. -/
theorem c10_move_assign_no_leak (dest other : Pid) (kr : KillRes)
    (st : Nat) (b : Bool) (tr : List (WaitpidRes × Bool))
    (h : dest.pid ≠ -1) :
    ((Pid.moveAssign dest other kr ((.done st, b) :: tr)).2.2
      = [.debugLog ("killing process " ++ toString dest.pid),
         .signal (if dest.separatePG then -dest.pid else dest.pid) dest.killSignal]
        ++ (match kr with
            | .ok => []
            | .fail _ => [.logError ("killing process " ++ toString dest.pid)])
        ++ [.waitCall dest.pid]) ∧
    ((Pid.moveAssign dest other kr ((.done st, b) :: tr)).1
      = ⟨other.pid, other.separatePG, other.killSignal⟩) ∧
    ((Pid.moveAssign dest other kr ((.done st, b) :: tr)).2.1.pid = -1) ∧
    (∀ p : Pid, p.pid = -1 → p.dtor kr tr = (none, [])) := by
  refine ⟨?_, rfl, rfl, ?_⟩
  · simp [Pid.moveAssign, Pid.moveCtor, Pid.dtor, Pid.kill, h]
  · intro p hp
    simp [Pid.dtor, hp]

/-- Witness for C10 at concrete handles: assigning onto an owning
handle with pid 7 signals and reaps process 7 before the handle ends up
owning pid 12, and destroying an empty handle does nothing. -/
theorem c10_move_assign_no_leak_witness :
    Pid.moveAssign ⟨7, false, 9⟩ ⟨12, true, 15⟩ .ok [(.done 0, false)]
      = (⟨12, true, 15⟩, ⟨-1, true, 15⟩,
         [.debugLog "killing process 7", .signal 7 9, .waitCall 7]) ∧
    Pid.dtor ⟨-1, false, 9⟩ .ok [] = (none, []) := by
  have h := c10_move_assign_no_leak ⟨7, false, 9⟩ ⟨12, true, 15⟩ .ok 0 false []
    (by decide)
  refine ⟨?_, h.2.2.2 ⟨-1, false, 9⟩ rfl⟩
  have h1 := h.1
  have h2 := h.2.1
  exact Prod.ext h2 (Prod.ext rfl (by simpa using h1))

end Lix
